import Mathlib

/-!
Verification of `src/js/navbar.js` (Phoenix Locksmith navigation module).

The module is a flat IIFE wiring DOM event listeners to small
state-mutation functions.  We embed the DOM state the module touches:

* the `.menu-toggle` element (only its `aria-expanded` attribute matters),
* the `.nav-menu` element (only its class list matters),
* `document.body`'s class list,
* the static NodeList of `.nav-dropdown` elements, each with a class list
  and an optional `a[aria-haspopup]` toggle link (its `aria-expanded`),
* the cached `isDesktop` boolean.

`document.querySelector` may return `null`, so the menu toggle, the nav
menu, and each dropdown's toggle link are `Option`s.  A JavaScript
handler that dereferences a `null` element throws a TypeError; we embed
handlers in the `Option` monad, where `none` is such a thrown error and
`some s` is normal completion in state `s`.  Attribute values are
`Option String` (`getAttribute` yields `null` or a string; `setAttribute`
coerces the boolean argument with `boolStr`).

The resize debouncer is modelled separately (`RafState`): browser
animation-frame callback handles are positive integers, a set of pending
callbacks, and the module's `resizeTimeout` variable.
-/

/-- String coercion JavaScript applies to the boolean second argument of
`setAttribute` (`!isOpen` becomes `"true"` / `"false"`). -/
def boolStr (b : Bool) : String := if b then "true" else "false"

/-- Embedding of `classList.contains(c)`. -/
def classContains (c : String) (cs : List String) : Bool := cs.contains c

/-- Embedding of `classList.add(c)`: appends the token unless present. -/
def classAdd (c : String) (cs : List String) : List String :=
  if classContains c cs then cs else cs ++ [c]

/-- Embedding of `classList.remove(c)`: drops every occurrence of the token. -/
def classRemove (c : String) (cs : List String) : List String :=
  cs.filter (· != c)

/-- Embedding of `classList.toggle(c)`: remove if present, add if absent. -/
def classToggle (c : String) (cs : List String) : List String :=
  if classContains c cs then classRemove c cs else classAdd c cs

/-- An `a[aria-haspopup]` dropdown toggle link: we track its
`aria-expanded` attribute (absent attribute is `none`). -/
structure ToggleEl where
  ariaExpanded : Option String
deriving DecidableEq, Repr

/-- A `.nav-dropdown` element: its class list and the result of
`dropdown.querySelector('a[aria-haspopup]')` (which may be `null`). -/
structure DropdownEl where
  classes : List String
  toggle : Option ToggleEl
deriving DecidableEq, Repr

/-- The slice of the document the module reads and writes.  `menuToggle`
and `navMenu` are the results of the two `document.querySelector` calls
at module load (possibly `null`); `dropdowns` is the
`document.querySelectorAll('.nav-dropdown')` NodeList; `bodyClasses` is
`document.body.classList` (the body always exists).  For the menu-toggle
button only its `aria-expanded` attribute is tracked, for the nav menu
only its class list. -/
structure Dom where
  menuToggle : Option ToggleEl
  navMenu : Option (List String)
  bodyClasses : List String
  dropdowns : List DropdownEl
deriving DecidableEq, Repr

/-- Module state: the DOM slice plus the closure-scoped cached
`isDesktop` boolean. -/
structure NavState where
  dom : Dom
  isDesktop : Bool
deriving DecidableEq, Repr

/-- Source: `const DESKTOP_BREAKPOINT = 1024;`. -/
def DESKTOP_BREAKPOINT : Nat := 1024

/-- Source: `function updateDesktopState() { isDesktop = window.innerWidth >= DESKTOP_BREAKPOINT; }`.
Returns the new value of `isDesktop` for a given `window.innerWidth`. -/
def updateDesktopState (innerWidth : Nat) : Bool :=
  decide (innerWidth ≥ DESKTOP_BREAKPOINT)

/-- Source: module-load initializer
`let isDesktop = window.innerWidth >= DESKTOP_BREAKPOINT;`. -/
def initialIsDesktop (innerWidth : Nat) : Bool :=
  decide (innerWidth ≥ DESKTOP_BREAKPOINT)

/-- Body of the `navDropdowns.forEach` loop in `closeAllDropdowns`:
`dropdown.classList.remove('is-open')`, and — guarded by
`if (dropdownToggle)` — `dropdownToggle.setAttribute('aria-expanded', 'false')`. -/
def closeDropdown (d : DropdownEl) : DropdownEl :=
  { classes := classRemove "is-open" d.classes,
    toggle := d.toggle.map (fun t => { t with ariaExpanded := some "false" }) }

/-- Source: `function closeAllDropdowns()`.  Total: the only per-dropdown
lookup is guarded with an existence check. -/
def closeAllDropdowns (s : NavState) : NavState :=
  { s with dom := { s.dom with dropdowns := s.dom.dropdowns.map closeDropdown } }

/-- Source: `function closeMobileMenu()`.  Dereferences `menuToggle`
(`setAttribute`) and `navMenu` (`classList.remove`) without existence
checks, hence throws (`none`) when either is `null`. -/
def closeMobileMenu (s : NavState) : Option NavState := do
  let _ ← s.dom.menuToggle
  let nm ← s.dom.navMenu
  some (closeAllDropdowns
    { s with dom := { s.dom with
        menuToggle := some { ariaExpanded := some "false" },
        navMenu := some (classRemove "is-active" nm),
        bodyClasses := classRemove "menu-open" s.dom.bodyClasses } })

/-- Source: `function toggleMobileMenu()`.  Reads
`menuToggle.getAttribute('aria-expanded') === 'true'`, then sets
`aria-expanded` to `!isOpen`, toggles `is-active` on the nav menu and
`menu-open` on the body, and closes all dropdowns when it was open.
Dereferences `menuToggle` and `navMenu` without existence checks. -/
def toggleMobileMenu (s : NavState) : Option NavState := do
  let mt ← s.dom.menuToggle
  let isOpen := mt.ariaExpanded == some "true"
  let nm ← s.dom.navMenu
  let s1 : NavState :=
    { s with dom := { s.dom with
        menuToggle := some { ariaExpanded := some (boolStr (!isOpen)) },
        navMenu := some (classToggle "is-active" nm),
        bodyClasses := classToggle "menu-open" s.dom.bodyClasses } }
  if isOpen then some (closeAllDropdowns s1) else some s1

/-- Source: `function toggleDropdown(dropdown, event)`.  The dropdown
argument is given as its index in the `navDropdowns` NodeList (the
`d !== dropdown` identity test becomes an index comparison; the index of
an actual call is always in range).  Returns the new state and whether
`event.preventDefault()` was called.  On mobile the final
`dropdownToggle.setAttribute` is unguarded, so a dropdown without an
`a[aria-haspopup]` link throws; closing the other dropdowns is guarded. -/
def toggleDropdown (s : NavState) (i : Nat) : Option (NavState × Bool) := do
  let d ← s.dom.dropdowns[i]?
  if !s.isDesktop then
    let isOpen := classContains "is-open" d.classes
    let _ ← d.toggle
    let ds := s.dom.dropdowns.mapIdx (fun j dj =>
      if j = i then
        { classes := classToggle "is-open" dj.classes,
          toggle := dj.toggle.map
            (fun t => { t with ariaExpanded := some (boolStr (!isOpen)) }) }
      else closeDropdown dj)
    some ({ s with dom := { s.dom with dropdowns := ds } }, true)
  else
    some (s, false)

/-- A document click event, abstracted to the two containment tests the
handler performs: `navMenu.contains(event.target)` and
`menuToggle.contains(event.target)`. -/
structure ClickEvent where
  insideMenu : Bool
  onToggle : Bool
deriving DecidableEq, Repr

/-- Source: `function handleClickOutside(event)`.  Reads
`navMenu.classList.contains('is-active')` and calls `.contains` on both
`navMenu` and `menuToggle` without existence checks, then conditionally
closes the menu. -/
def handleClickOutside (s : NavState) (ev : ClickEvent) : Option NavState := do
  let nm ← s.dom.navMenu
  let isMenuOpen := classContains "is-active" nm
  let _ ← s.dom.menuToggle
  if isMenuOpen && !ev.insideMenu && !ev.onToggle then
    closeMobileMenu s
  else
    some s

/-- Source: `function handleEscapeKey(event)`: close the mobile menu
when `event.key === 'Escape'`. -/
def handleEscapeKey (s : NavState) (key : String) : Option NavState :=
  if key == "Escape" then closeMobileMenu s else some s

/-- Source: `function handleDropdownKeyboard(event)`.  `ci` is the index
of `event.target.closest('.nav-dropdown')` in the NodeList, `none` when
there is no enclosing dropdown (early return).  Enter/Space on mobile
delegates to `toggleDropdown`; Escape closes the dropdown (the
`aria-expanded` update and `focus()` are guarded by `if (toggle)`).
Returns the state and whether the event's default was prevented. -/
def handleDropdownKeyboard (s : NavState) (key : String) (ci : Option Nat) :
    Option (NavState × Bool) :=
  match ci with
  | none => some (s, false)
  | some i => do
    let p ← (if (key == "Enter" || key == " ") && !s.isDesktop then
        toggleDropdown s i
      else
        some (s, false))
    let s1 := p.1
    let pd := p.2
    if key == "Escape" then
      let ds := s1.dom.dropdowns.mapIdx
        (fun j dj => if j = i then closeDropdown dj else dj)
      some ({ s1 with dom := { s1.dom with dropdowns := ds } }, pd)
    else
      some p

/-- Source: the `mouseenter` listener attached to each dropdown in
`init`: on desktop, add `is-open` and set the (existence-checked)
toggle's `aria-expanded` to `'true'`.  Total. -/
def dropdownMouseEnter (s : NavState) (i : Nat) : NavState :=
  if s.isDesktop then
    { s with dom := { s.dom with dropdowns := s.dom.dropdowns.mapIdx (fun j dj =>
        if j = i then
          { classes := classAdd "is-open" dj.classes,
            toggle := dj.toggle.map (fun t => { t with ariaExpanded := some "true" }) }
        else dj) } }
  else s

/-- Source: the `mouseleave` listener attached to each dropdown in
`init`: on desktop, remove `is-open` and set the (existence-checked)
toggle's `aria-expanded` to `'false'`.  Total. -/
def dropdownMouseLeave (s : NavState) (i : Nat) : NavState :=
  if s.isDesktop then
    { s with dom := { s.dom with dropdowns := s.dom.dropdowns.mapIdx (fun j dj =>
        if j = i then
          { classes := classRemove "is-open" dj.classes,
            toggle := dj.toggle.map (fun t => { t with ariaExpanded := some "false" }) }
        else dj) } }
  else s

/-- Source: the click listener `init` attaches to every nav link that is
not a dropdown toggle (`navMenu.querySelectorAll('a:not([aria-haspopup])')`):
close the mobile menu when not on desktop. -/
def navLinkClick (s : NavState) : Option NavState :=
  if !s.isDesktop then closeMobileMenu s else some s

/-- Source: `function init()`.  The state it produces is the set of
listener registrations: whether the menu-toggle click listener was
attached (guarded by `if (menuToggle)`) and, per dropdown, whether the
click/keydown listeners were attached (guarded by `if (dropdownToggle)`).
The call `navMenu.querySelectorAll('a:not([aria-haspopup])')` dereferences
`navMenu` without an existence check, so `init` throws when `.nav-menu`
is absent. -/
def init (s : NavState) : Option (Bool × List Bool) := do
  let menuToggleListener := s.dom.menuToggle.isSome
  let dropdownListeners := s.dom.dropdowns.map (fun d => d.toggle.isSome)
  let _ ← s.dom.navMenu
  some (menuToggleListener, dropdownListeners)

/-- The second component of the resize machinery: the callback passed to
`requestAnimationFrame` by `handleResize`
(`updateDesktopState(); if (isDesktop) closeMobileMenu();`), run when the
browser fires the pending frame with the current `window.innerWidth`. -/
def resizeRafCallback (s : NavState) (innerWidth : Nat) : Option NavState :=
  let s1 := { s with isDesktop := updateDesktopState innerWidth }
  if s1.isDesktop then closeMobileMenu s1 else some s1

/-- Scheduler state for the resize debouncer: the ids of
animation-frame callbacks that are scheduled but have not yet run or
been cancelled, the module's `resizeTimeout` variable, and the next
fresh callback handle (browser handles are positive, so `if (resizeTimeout)`
truthiness coincides with non-`null`). -/
structure RafState where
  pending : List Nat
  resizeTimeout : Option Nat
  nextId : Nat
deriving DecidableEq, Repr

/-- Scheduler state at module load: nothing pending, `resizeTimeout = null`. -/
def rafInitial : RafState := { pending := [], resizeTimeout := none, nextId := 1 }

/-- Embedding of `cancelAnimationFrame(id)`: the callback with that
handle, if still pending, is removed and never runs. -/
def cancelAnimationFrame (p : List Nat) (id : Nat) : List Nat :=
  p.filter (· != id)

/-- Source: `function handleResize()` — the synchronous part run on each
resize event: `if (resizeTimeout) cancelAnimationFrame(resizeTimeout)`,
then `resizeTimeout = requestAnimationFrame(...)`, which schedules a
fresh callback. -/
def handleResize (r : RafState) : RafState :=
  let p :=
    match r.resizeTimeout with
    | some t => cancelAnimationFrame r.pending t
    | none => r.pending
  { pending := p ++ [r.nextId], resizeTimeout := some r.nextId,
    nextId := r.nextId + 1 }

/-- One scheduler transition: either a resize event runs `handleResize`,
or the browser fires one pending animation-frame callback (removing it
from the pending set; the module never resets `resizeTimeout`). -/
inductive RafStep : RafState → RafState → Prop
  | resize (r : RafState) : RafStep r (handleResize r)
  | fire (r : RafState) (id : Nat) (h : id ∈ r.pending) :
      RafStep r { r with pending := cancelAnimationFrame r.pending id }

/-- Reachable scheduler states: those obtained from the module-load
state by resize events and frame firings. -/
inductive RafReachable : RafState → Prop
  | load : RafReachable rafInitial
  | step {r r2 : RafState} : RafReachable r → RafStep r r2 → RafReachable r2

/-- Every selector string the module passes to `querySelector`,
`querySelectorAll`, or `closest`, one entry per occurrence in source
order: the three module-load queries, `closeAllDropdowns`,
`toggleDropdown` (outer lookup and the forEach body),
`handleDropdownKeyboard` (`closest` and the Escape branch), and the four
queries in `init` (dropdown toggle, mouseenter, mouseleave, nav links). -/
def querySelectorArgs : List String :=
  [".menu-toggle", ".nav-menu", ".nav-dropdown",
   "a[aria-haspopup]",
   "a[aria-haspopup]", "a[aria-haspopup]",
   ".nav-dropdown", "a[aria-haspopup]",
   "a[aria-haspopup]", "a[aria-haspopup]", "a[aria-haspopup]",
   "a:not([aria-haspopup])"]

/-- The selectors named by the spec's interface contract (section 6 of
the spec); stated from the spec's words, for comparison with
`querySelectorArgs`. -/
def claimedSelectors : List String :=
  [".menu-toggle", ".nav-menu", ".nav-dropdown", "a[aria-haspopup]"]

/-- The three encodings of the menu-open state agree: whenever the menu
toggle and the nav menu exist, `aria-expanded = 'true'` on the toggle iff
the nav menu has class `is-active` iff the body has class `menu-open`. -/
def MenuSync (s : NavState) : Prop :=
  ∀ mt nm, s.dom.menuToggle = some mt → s.dom.navMenu = some nm →
    ((mt.ariaExpanded = some "true" ↔ "is-active" ∈ nm) ∧
     ("is-active" ∈ nm ↔ "menu-open" ∈ s.dom.bodyClasses))

/-- The mobile menu is fully closed: `aria-expanded = 'false'` on the
toggle, no `is-active` on the nav menu, no `menu-open` on the body, and
every dropdown closed (`is-open` absent, its toggle's `aria-expanded`
set to `'false'` when the toggle exists). -/
def FullyClosed (s : NavState) : Prop :=
  s.dom.menuToggle = some { ariaExpanded := some "false" } ∧
  (∃ nm, s.dom.navMenu = some nm ∧ "is-active" ∉ nm) ∧
  "menu-open" ∉ s.dom.bodyClasses ∧
  ∀ d ∈ s.dom.dropdowns, "is-open" ∉ d.classes ∧
    ∀ tg, d.toggle = some tg → tg.ariaExpanded = some "false"

/-- At most one dropdown in the NodeList carries the class `is-open`. -/
def AtMostOneOpen (ds : List DropdownEl) : Prop :=
  ∀ j k (hj : j < ds.length) (hk : k < ds.length),
    "is-open" ∈ (ds.get ⟨j, hj⟩).classes →
    "is-open" ∈ (ds.get ⟨k, hk⟩).classes → j = k

/-- Scheduler invariant: either nothing is pending, or exactly the
callback recorded in `resizeTimeout` is pending. -/
def RafInv (r : RafState) : Prop :=
  r.pending = [] ∨ ∃ t, r.resizeTimeout = some t ∧ r.pending = [t]

/-- Concrete dropdown with a toggle link, closed. -/
def ddClosed : DropdownEl :=
  { classes := [], toggle := some { ariaExpanded := some "false" } }

/-- Concrete dropdown with a toggle link, open. -/
def ddOpen : DropdownEl :=
  { classes := ["is-open"], toggle := some { ariaExpanded := some "true" } }

/-- Concrete dropdown whose `a[aria-haspopup]` lookup returned `null`. -/
def ddNoToggle : DropdownEl := { classes := [], toggle := none }

/-- Concrete document state: menu closed and synchronized, one dropdown,
mobile viewport. -/
def sClosed : NavState :=
  { dom := { menuToggle := some { ariaExpanded := some "false" },
             navMenu := some [], bodyClasses := [], dropdowns := [ddClosed] },
    isDesktop := false }

/-- Concrete document state: menu open and synchronized, one open and one
closed dropdown, mobile viewport. -/
def sOpen : NavState :=
  { dom := { menuToggle := some { ariaExpanded := some "true" },
             navMenu := some ["is-active"], bodyClasses := ["menu-open"],
             dropdowns := [ddOpen, ddClosed] },
    isDesktop := false }

/-- Concrete document state: desktop viewport, menu closed, two dropdowns. -/
def sDesk : NavState :=
  { dom := { menuToggle := some { ariaExpanded := some "false" },
             navMenu := some [], bodyClasses := [],
             dropdowns := [ddClosed, ddOpen] },
    isDesktop := true }

/-- Concrete document state whose `.nav-menu` lookup returned `null`
(the `.menu-toggle` exists). -/
def sNoNavMenu : NavState :=
  { dom := { menuToggle := some { ariaExpanded := some "false" },
             navMenu := none, bodyClasses := [], dropdowns := [] },
    isDesktop := false }

/-- Concrete document state with `.menu-toggle` and `.nav-menu` present
but a dropdown whose `a[aria-haspopup]` link is missing. -/
def sCore : NavState :=
  { dom := { menuToggle := some { ariaExpanded := some "false" },
             navMenu := some [], bodyClasses := [], dropdowns := [ddNoToggle] },
    isDesktop := false }

theorem classContains_iff (c : String) (cs : List String) :
    classContains c cs = true ↔ c ∈ cs := by
  simp [classContains]

theorem mem_classRemove (a c : String) (cs : List String) :
    a ∈ classRemove c cs ↔ a ∈ cs ∧ a ≠ c := by
  simp [classRemove]

theorem not_mem_classRemove_self (c : String) (cs : List String) :
    c ∉ classRemove c cs := by
  simp [mem_classRemove]

theorem self_mem_classAdd (c : String) (cs : List String) :
    c ∈ classAdd c cs := by
  by_cases h : c ∈ cs
  · simp [classAdd, classContains, h]
  · simp [classAdd, classContains, h]

theorem self_mem_classToggle_iff (c : String) (cs : List String) :
    c ∈ classToggle c cs ↔ c ∉ cs := by
  by_cases h : c ∈ cs
  · simp [classToggle, classContains, h, mem_classRemove]
  · simp [classToggle, classContains, h, self_mem_classAdd]

theorem closeAllDropdowns_untouched (s : NavState) :
    (closeAllDropdowns s).dom.menuToggle = s.dom.menuToggle ∧
    (closeAllDropdowns s).dom.navMenu = s.dom.navMenu ∧
    (closeAllDropdowns s).dom.bodyClasses = s.dom.bodyClasses ∧
    (closeAllDropdowns s).isDesktop = s.isDesktop := by
  simp [closeAllDropdowns]

theorem closeDropdown_closed (d : DropdownEl) :
    "is-open" ∉ (closeDropdown d).classes ∧
    ∀ tg, (closeDropdown d).toggle = some tg → tg.ariaExpanded = some "false" := by
  constructor
  · exact not_mem_classRemove_self _ _
  · intro tg h
    simp [closeDropdown, Option.map_eq_some'] at h
    obtain ⟨t0, _, rfl⟩ := h
    rfl

theorem closeMobileMenu_eq (s : NavState) (mt : ToggleEl) (nm : List String)
    (hmt : s.dom.menuToggle = some mt) (hnm : s.dom.navMenu = some nm) :
    closeMobileMenu s = some (closeAllDropdowns
      { s with dom := { s.dom with
          menuToggle := some { ariaExpanded := some "false" },
          navMenu := some (classRemove "is-active" nm),
          bodyClasses := classRemove "menu-open" s.dom.bodyClasses } }) := by
  simp [closeMobileMenu, hmt, hnm]

theorem closeMobileMenu_fullyClosed (s t : NavState)
    (h : closeMobileMenu s = some t) : FullyClosed t := by
  cases hmt : s.dom.menuToggle with
  | none => simp [closeMobileMenu, hmt] at h
  | some mt =>
  cases hnm : s.dom.navMenu with
  | none => simp [closeMobileMenu, hmt, hnm] at h
  | some nm =>
  rw [closeMobileMenu_eq s mt nm hmt hnm] at h
  obtain rfl := Option.some.inj h
  refine ⟨by simp [closeAllDropdowns],
    ⟨classRemove "is-active" nm, by simp [closeAllDropdowns],
      not_mem_classRemove_self _ _⟩,
    by simp [closeAllDropdowns, mem_classRemove], ?_⟩
  intro d hd
  simp [closeAllDropdowns] at hd
  obtain ⟨d0, _, rfl⟩ := hd
  exact closeDropdown_closed d0

theorem closeMobileMenu_isSome (s : NavState) (mt : ToggleEl) (nm : List String)
    (hmt : s.dom.menuToggle = some mt) (hnm : s.dom.navMenu = some nm) :
    (closeMobileMenu s).isSome := by
  rw [closeMobileMenu_eq s mt nm hmt hnm]
  rfl

theorem closeMobileMenu_isDesktop (s t : NavState)
    (h : closeMobileMenu s = some t) : t.isDesktop = s.isDesktop := by
  cases hmt : s.dom.menuToggle with
  | none => simp [closeMobileMenu, hmt] at h
  | some mt =>
  cases hnm : s.dom.navMenu with
  | none => simp [closeMobileMenu, hmt, hnm] at h
  | some nm =>
  rw [closeMobileMenu_eq s mt nm hmt hnm] at h
  obtain rfl := Option.some.inj h
  simp [closeAllDropdowns]

theorem fullyClosed_menuSync (t : NavState) (h : FullyClosed t) : MenuSync t := by
  obtain ⟨h1, ⟨nm, h2, h3⟩, h4, _⟩ := h
  intro mt nm2 hmt hnm
  rw [h1] at hmt
  rw [h2] at hnm
  obtain rfl := Option.some.inj hmt.symm
  obtain rfl := Option.some.inj hnm.symm
  refine ⟨⟨fun hc => absurd hc (by decide), fun hc => absurd hc h3⟩,
    fun hc => absurd hc h3, fun hc => absurd hc h4⟩

theorem menuSync_untouched (s t : NavState)
    (h1 : t.dom.menuToggle = s.dom.menuToggle)
    (h2 : t.dom.navMenu = s.dom.navMenu)
    (h3 : t.dom.bodyClasses = s.dom.bodyClasses)
    (h : MenuSync s) : MenuSync t := by
  intro mt nm hmt hnm
  rw [h1] at hmt
  rw [h2] at hnm
  rw [h3]
  exact h mt nm hmt hnm

theorem rafInv_of_reachable (r0 : RafState) (h : RafReachable r0) : RafInv r0 := by
  induction h with
  | load => exact Or.inl rfl
  | step hr hstep ih =>
    rename_i r r2
    cases hstep with
    | resize =>
      rcases ih with h0 | ⟨t, ht, hp⟩
      · refine Or.inr ⟨r.nextId, rfl, ?_⟩
        cases hrt : r.resizeTimeout <;>
          simp [handleResize, cancelAnimationFrame, h0, hrt]
      · refine Or.inr ⟨r.nextId, rfl, ?_⟩
        simp [handleResize, cancelAnimationFrame, ht, hp]
    | fire id hid =>
      rcases ih with h0 | ⟨t, ht, hp⟩
      · rw [h0] at hid
        cases hid
      · refine Or.inl ?_
        rw [hp] at hid
        simp at hid
        subst hid
        simp [cancelAnimationFrame, hp]

/-- C5: the resize debouncer keeps at most one animation-frame callback
pending: in every reachable scheduler state zero or one callbacks are
pending, and a resize event always leaves exactly one pending (it
cancels the previous one, if any, and schedules exactly one). -/
theorem resize_debounce_single_pending (r : RafState) (h : RafReachable r) :
    r.pending.length ≤ 1 ∧ (handleResize r).pending.length = 1 := by
  have hi := rafInv_of_reachable r h
  constructor
  · rcases hi with h0 | ⟨t, ht, hp⟩
    · simp [h0]
    · simp [hp]
  · rcases hi with h0 | ⟨t, ht, hp⟩
    · cases hrt : r.resizeTimeout <;>
        simp [handleResize, cancelAnimationFrame, h0, hrt]
    · simp [handleResize, cancelAnimationFrame, ht, hp]

/-- Witness for `resize_debounce_single_pending` at the module-load
scheduler state. -/
theorem resize_debounce_single_pending_witness :
    rafInitial.pending.length ≤ 1 ∧
    (handleResize rafInitial).pending.length = 1 :=
  resize_debounce_single_pending rafInitial RafReachable.load

/-- C6: the cached desktop flag equals the comparison of the viewport
width with the fixed breakpoint 1024 — at module load, after
`updateDesktopState`, and after the resize callback runs. -/
theorem isDesktop_matches_breakpoint (w : Nat) :
    initialIsDesktop w = decide (w ≥ 1024) ∧
    updateDesktopState w = decide (w ≥ 1024) ∧
    ∀ s t : NavState, resizeRafCallback s w = some t →
      t.isDesktop = decide (w ≥ 1024) := by
  refine ⟨rfl, rfl, ?_⟩
  intro s t h
  simp only [resizeRafCallback] at h
  by_cases hd : updateDesktopState w = true
  · have h2 : closeMobileMenu { s with isDesktop := updateDesktopState w } = some t := by
      simpa [hd] using h
    rw [closeMobileMenu_isDesktop _ t h2]
    rfl
  · rw [Bool.not_eq_true] at hd
    simp [hd] at h
    rw [← h]
    exact hd.symm

/-- Witness for `isDesktop_matches_breakpoint` at width 1280: the resize
callback leaves the concrete closed-menu state with the flag `true`. -/
theorem isDesktop_matches_breakpoint_witness :
    initialIsDesktop 1280 = decide (1280 ≥ 1024) ∧
    ({ dom := { menuToggle := some { ariaExpanded := some "false" },
                navMenu := some [], bodyClasses := [], dropdowns := [ddClosed] },
       isDesktop := true } : NavState).isDesktop = decide (1280 ≥ 1024) :=
  ⟨(isDesktop_matches_breakpoint 1280).1,
   (isDesktop_matches_breakpoint 1280).2.2 sClosed _ (by decide)⟩

/-- C7 is refuted: `init` also passes the selector
`a:not([aria-haspopup])` to `navMenu.querySelectorAll`, which the
interface contract's list does not name. -/
theorem selector_contract_counterexample :
    "a:not([aria-haspopup])" ∈ querySelectorArgs ∧
    "a:not([aria-haspopup])" ∉ claimedSelectors := by
  decide

/-- C7 amended: the module's DOM queries use exactly the four selectors
of the interface contract plus `a:not([aria-haspopup])` (used once, in
`init`, to wire the close-on-nav-link-click handlers). -/
theorem selector_contract_amended :
    querySelectorArgs.toFinset =
      claimedSelectors.toFinset ∪ {"a:not([aria-haspopup])"} := by
  decide

/-- C1 is refuted: with `.menu-toggle` present but `.nav-menu` absent,
the menu-toggle click handler, the document click handler, the Escape
keydown handler and `init` all dereference the `null` nav menu and throw
a TypeError (modelled as `none`) instead of silently skipping. -/
theorem missing_element_counterexample :
    toggleMobileMenu sNoNavMenu = none ∧
    handleClickOutside sNoNavMenu { insideMenu := false, onToggle := false } = none ∧
    handleEscapeKey sNoNavMenu "Escape" = none ∧
    init sNoNavMenu = none := by
  refine ⟨by decide, by decide, by decide, by decide⟩

/-- C1 amended: the handlers are total when a dropdown's
`a[aria-haspopup]` link is missing (those lookups are guarded), provided
`.menu-toggle` and `.nav-menu` exist; but when `.nav-menu` is absent the
menu-toggle click, document click, Escape keydown and `init` handlers
throw instead of skipping. -/
theorem handlers_total_unless_core_missing (s : NavState) (ev : ClickEvent)
    (key : String) (hmt : s.dom.menuToggle.isSome) :
    (s.dom.navMenu.isSome →
      (toggleMobileMenu s).isSome ∧ (handleClickOutside s ev).isSome ∧
      (handleEscapeKey s key).isSome ∧ (init s).isSome) ∧
    (s.dom.navMenu = none →
      toggleMobileMenu s = none ∧ handleClickOutside s ev = none ∧
      handleEscapeKey s "Escape" = none ∧ init s = none) := by
  obtain ⟨mt, hmt2⟩ := Option.isSome_iff_exists.mp hmt
  constructor
  · intro hnm1
    obtain ⟨nm, hnm⟩ := Option.isSome_iff_exists.mp hnm1
    refine ⟨?_, ?_, ?_, ?_⟩
    · simp [toggleMobileMenu, hmt2, hnm]
      split <;> simp
    · simp [handleClickOutside, hmt2, hnm]
      split
      · exact closeMobileMenu_isSome s mt nm hmt2 hnm
      · simp
    · simp [handleEscapeKey]
      split
      · exact closeMobileMenu_isSome s mt nm hmt2 hnm
      · simp
    · simp [init, hnm]
  · intro hnm
    refine ⟨?_, ?_, ?_, ?_⟩
    · simp [toggleMobileMenu, hmt2, hnm]
    · simp [handleClickOutside, hnm]
    · simp [handleEscapeKey, closeMobileMenu, hmt2, hnm]
    · simp [init, hnm]

/-- Witness for `handlers_total_unless_core_missing` at a concrete state
whose single dropdown has no `a[aria-haspopup]` link. -/
theorem handlers_total_unless_core_missing_witness :
    (toggleMobileMenu sCore).isSome ∧
    (handleClickOutside sCore { insideMenu := false, onToggle := false }).isSome ∧
    (handleEscapeKey sCore "Escape").isSome ∧ (init sCore).isSome :=
  (handlers_total_unless_core_missing sCore { insideMenu := false, onToggle := false }
    "Escape" (by decide)).1 (by decide)

theorem self_not_mem_classToggle (c : String) (cs : List String) (h : c ∈ cs) :
    c ∉ classToggle c cs :=
  fun hc => (self_mem_classToggle_iff c cs).mp hc h

/-- C2: when the mobile menu is closed (`aria-expanded` on the toggle is
not `'true'`, the nav menu lacks `is-active`, the body lacks
`menu-open`), clicking the menu toggle sets `aria-expanded` to `'true'`,
adds `is-active` to the nav menu and `menu-open` to the body, and leaves
every dropdown's state unchanged. -/
theorem toggleMobileMenu_opens (s : NavState) (mt : ToggleEl) (nm : List String)
    (hmt : s.dom.menuToggle = some mt) (hnm : s.dom.navMenu = some nm)
    (hclosed : mt.ariaExpanded ≠ some "true")
    (hna : "is-active" ∉ nm) (hno : "menu-open" ∉ s.dom.bodyClasses) :
    ∃ t : NavState, toggleMobileMenu s = some t ∧
      t.dom.menuToggle = some { ariaExpanded := some "true" } ∧
      (∃ nm2, t.dom.navMenu = some nm2 ∧ "is-active" ∈ nm2) ∧
      "menu-open" ∈ t.dom.bodyClasses ∧
      t.dom.dropdowns = s.dom.dropdowns := by
  have hbeq : (mt.ariaExpanded == some "true") = false := beq_eq_false_iff_ne.mpr hclosed
  refine ⟨{ s with dom := { s.dom with
      menuToggle := some { ariaExpanded := some (boolStr (!(mt.ariaExpanded == some "true"))) },
      navMenu := some (classToggle "is-active" nm),
      bodyClasses := classToggle "menu-open" s.dom.bodyClasses } }, ?_, ?_, ?_, ?_, ?_⟩
  · simp [toggleMobileMenu, hmt, hnm, hbeq, hclosed]
  · simp [hbeq, boolStr]
  · exact ⟨classToggle "is-active" nm, rfl, (self_mem_classToggle_iff _ _).mpr hna⟩
  · exact (self_mem_classToggle_iff _ _).mpr hno
  · rfl

/-- Witness for `toggleMobileMenu_opens` at the concrete closed state. -/
theorem toggleMobileMenu_opens_witness :
    ∃ t : NavState, toggleMobileMenu sClosed = some t ∧
      t.dom.menuToggle = some { ariaExpanded := some "true" } ∧
      (∃ nm2, t.dom.navMenu = some nm2 ∧ "is-active" ∈ nm2) ∧
      "menu-open" ∈ t.dom.bodyClasses ∧
      t.dom.dropdowns = sClosed.dom.dropdowns :=
  toggleMobileMenu_opens sClosed { ariaExpanded := some "false" } [] rfl rfl
    (by decide) (by decide) (by decide)

/-- C3: when the mobile menu is open (`aria-expanded` is `'true'`,
`is-active` on the nav menu, `menu-open` on the body), clicking the menu
toggle sets `aria-expanded` to `'false'`, removes `is-active` and
`menu-open`, and closes every dropdown: each loses `is-open` and each
existing toggle link gets `aria-expanded` `'false'`. -/
theorem toggleMobileMenu_closes (s : NavState) (mt : ToggleEl) (nm : List String)
    (hmt : s.dom.menuToggle = some mt) (hnm : s.dom.navMenu = some nm)
    (hopen : mt.ariaExpanded = some "true")
    (hia : "is-active" ∈ nm) (hmo : "menu-open" ∈ s.dom.bodyClasses) :
    ∃ t : NavState, toggleMobileMenu s = some t ∧
      t.dom.menuToggle = some { ariaExpanded := some "false" } ∧
      (∃ nm2, t.dom.navMenu = some nm2 ∧ "is-active" ∉ nm2) ∧
      "menu-open" ∉ t.dom.bodyClasses ∧
      ∀ d ∈ t.dom.dropdowns, "is-open" ∉ d.classes ∧
        ∀ tg, d.toggle = some tg → tg.ariaExpanded = some "false" := by
  have hbeq : (mt.ariaExpanded == some "true") = true := beq_iff_eq.mpr hopen
  refine ⟨closeAllDropdowns { s with dom := { s.dom with
      menuToggle := some { ariaExpanded := some (boolStr (!(mt.ariaExpanded == some "true"))) },
      navMenu := some (classToggle "is-active" nm),
      bodyClasses := classToggle "menu-open" s.dom.bodyClasses } }, ?_, ?_, ?_, ?_, ?_⟩
  · simp [toggleMobileMenu, hmt, hnm, hbeq, hopen]
  · simp [closeAllDropdowns, hbeq, boolStr]
  · exact ⟨classToggle "is-active" nm, by simp [closeAllDropdowns],
      self_not_mem_classToggle _ _ hia⟩
  · simpa [closeAllDropdowns] using self_not_mem_classToggle _ _ hmo
  · intro d hd
    simp [closeAllDropdowns] at hd
    obtain ⟨d0, _, rfl⟩ := hd
    exact closeDropdown_closed d0

/-- Witness for `toggleMobileMenu_closes` at the concrete open state. -/
theorem toggleMobileMenu_closes_witness :
    ∃ t : NavState, toggleMobileMenu sOpen = some t ∧
      t.dom.menuToggle = some { ariaExpanded := some "false" } ∧
      (∃ nm2, t.dom.navMenu = some nm2 ∧ "is-active" ∉ nm2) ∧
      "menu-open" ∉ t.dom.bodyClasses ∧
      ∀ d ∈ t.dom.dropdowns, "is-open" ∉ d.classes ∧
        ∀ tg, d.toggle = some tg → tg.ariaExpanded = some "false" :=
  toggleMobileMenu_closes sOpen { ariaExpanded := some "true" } ["is-active"]
    rfl rfl rfl (by decide) (by decide)

/-- C10: an Escape keydown on the document (with the menu toggle and the
nav menu present) fully closes the mobile menu regardless of its prior
state and of `isDesktop`: `aria-expanded` becomes `'false'`, `is-active`
and `menu-open` are removed, and every dropdown is closed. -/
theorem escape_fully_closes_menu (s : NavState)
    (hmt : s.dom.menuToggle.isSome) (hnm : s.dom.navMenu.isSome) :
    ∃ t, handleEscapeKey s "Escape" = some t ∧ FullyClosed t := by
  obtain ⟨mt, hmt2⟩ := Option.isSome_iff_exists.mp hmt
  obtain ⟨nm, hnm2⟩ := Option.isSome_iff_exists.mp hnm
  have h1 : handleEscapeKey s "Escape" = closeMobileMenu s := by
    simp [handleEscapeKey]
  rw [h1, closeMobileMenu_eq s mt nm hmt2 hnm2]
  exact ⟨_, rfl, closeMobileMenu_fullyClosed s _ (closeMobileMenu_eq s mt nm hmt2 hnm2)⟩

/-- Witness for `escape_fully_closes_menu` at the concrete open state. -/
theorem escape_fully_closes_menu_witness :
    ∃ t, handleEscapeKey sOpen "Escape" = some t ∧ FullyClosed t :=
  escape_fully_closes_menu sOpen (by decide) (by decide)

theorem atMostOneOpen_mapIdx (ds : List DropdownEl) (i : Nat)
    (g : Nat → DropdownEl → DropdownEl)
    (hclosed : ∀ j d, j ≠ i → "is-open" ∉ (g j d).classes) :
    AtMostOneOpen (ds.mapIdx g) := by
  intro j k hj hk hjo hko
  have hj2 : j < ds.length := by simpa using hj
  have hk2 : k < ds.length := by simpa using hk
  have e1 : (ds.mapIdx g).get ⟨j, hj⟩ = g j (ds.get ⟨j, hj2⟩) := by
    simp [List.getElem_mapIdx]
  have e2 : (ds.mapIdx g).get ⟨k, hk⟩ = g k (ds.get ⟨k, hk2⟩) := by
    simp [List.getElem_mapIdx]
  rw [e1] at hjo
  rw [e2] at hko
  have hji : j = i := by
    by_contra hne
    exact hclosed j _ hne hjo
  have hki : k = i := by
    by_contra hne
    exact hclosed k _ hne hko
  rw [hji, hki]

/-- C9: on mobile, dropdowns are mutually exclusive: after a click on a
dropdown toggle (`toggleDropdown`) or an Enter/Space keydown on it, at
most one `.nav-dropdown` has class `is-open`, because every dropdown
other than the one acted on is closed first. -/
theorem mobile_dropdowns_mutually_exclusive (s : NavState)
    (hmob : s.isDesktop = false) :
    (∀ i t pd, toggleDropdown s i = some (t, pd) →
      AtMostOneOpen t.dom.dropdowns) ∧
    (∀ key i t pd, (key = "Enter" ∨ key = " ") →
      handleDropdownKeyboard s key (some i) = some (t, pd) →
      AtMostOneOpen t.dom.dropdowns) := by
  have main : ∀ i t pd, toggleDropdown s i = some (t, pd) →
      AtMostOneOpen t.dom.dropdowns := by
    intro i t pd h
    cases hd : s.dom.dropdowns[i]? with
    | none => simp [toggleDropdown, hd] at h
    | some d =>
      cases hdt : d.toggle with
      | none => simp [toggleDropdown, hd, hmob, hdt] at h
      | some tg =>
        simp [toggleDropdown, hd, hmob, hdt] at h
        obtain ⟨ht, _⟩ := h
        rw [← ht]
        refine atMostOneOpen_mapIdx _ i _ ?_
        intro j dj hne
        simp only [if_neg hne]
        exact (closeDropdown_closed dj).1
  refine ⟨main, ?_⟩
  intro key i t pd hkey h
  have e : handleDropdownKeyboard s key (some i) = toggleDropdown s i := by
    rcases hkey with rfl | rfl <;>
      cases htd : toggleDropdown s i <;>
        simp [handleDropdownKeyboard, hmob, htd]
  rw [e] at h
  exact main i t pd h

/-- Witness for `mobile_dropdowns_mutually_exclusive`: clicking the
second dropdown's toggle in the concrete open state leaves exactly one
open dropdown. -/
theorem mobile_dropdowns_mutually_exclusive_witness :
    AtMostOneOpen [ddClosed, ddOpen] :=
  (mobile_dropdowns_mutually_exclusive sOpen rfl).1 1
    { dom := { menuToggle := some { ariaExpanded := some "true" },
               navMenu := some ["is-active"], bodyClasses := ["menu-open"],
               dropdowns := [ddClosed, ddOpen] },
      isDesktop := false }
    true (by decide)

theorem menuSync_closed_state (t : NavState)
    (h1 : t.dom.menuToggle = some { ariaExpanded := some "false" })
    (h2 : ∀ nm, t.dom.navMenu = some nm → "is-active" ∉ nm)
    (h3 : "menu-open" ∉ t.dom.bodyClasses) : MenuSync t := by
  intro mt nm hmt hnm
  rw [h1] at hmt
  obtain rfl := Option.some.inj hmt
  have hn := h2 nm hnm
  exact ⟨⟨fun hc => absurd (Option.some.inj hc) (by decide), fun hc => absurd hc hn⟩,
    fun hc => absurd hc hn, fun hc => absurd hc h3⟩

theorem menuSync_open_state (t : NavState)
    (h1 : t.dom.menuToggle = some { ariaExpanded := some "true" })
    (h2 : ∀ nm, t.dom.navMenu = some nm → "is-active" ∈ nm)
    (h3 : "menu-open" ∈ t.dom.bodyClasses) : MenuSync t := by
  intro mt nm hmt hnm
  rw [h1] at hmt
  obtain rfl := Option.some.inj hmt
  exact ⟨⟨fun _ => h2 nm hnm, fun _ => rfl⟩, fun _ => h3, fun _ => h2 nm hnm⟩

theorem closeMobileMenu_menuSync (s t : NavState)
    (h : closeMobileMenu s = some t) : MenuSync t :=
  fullyClosed_menuSync t (closeMobileMenu_fullyClosed s t h)

theorem toggleMobileMenu_menuSync (s t : NavState) (hs : MenuSync s)
    (h : toggleMobileMenu s = some t) : MenuSync t := by
  cases hmt : s.dom.menuToggle with
  | none => simp [toggleMobileMenu, hmt] at h
  | some mt =>
  cases hnm : s.dom.navMenu with
  | none => simp [toggleMobileMenu, hmt, hnm] at h
  | some nm =>
  have hsync := hs mt nm hmt hnm
  by_cases hopen : mt.ariaExpanded = some "true"
  · have hbeq : (mt.ariaExpanded == some "true") = true := beq_iff_eq.mpr hopen
    have hia : "is-active" ∈ nm := hsync.1.mp hopen
    have hmo : "menu-open" ∈ s.dom.bodyClasses := hsync.2.mp hia
    simp [toggleMobileMenu, hmt, hnm, hbeq, hopen, boolStr] at h
    refine menuSync_closed_state t ?_ ?_ ?_
    · rw [← h]
      simp [closeAllDropdowns]
    · intro nm2 hnm2
      rw [← h] at hnm2
      simp [closeAllDropdowns] at hnm2
      rw [← hnm2]
      exact self_not_mem_classToggle _ _ hia
    · rw [← h]
      simpa [closeAllDropdowns] using self_not_mem_classToggle _ _ hmo
  · have hbeq : (mt.ariaExpanded == some "true") = false := beq_eq_false_iff_ne.mpr hopen
    have hia : "is-active" ∉ nm := fun hc => hopen (hsync.1.mpr hc)
    have hmo : "menu-open" ∉ s.dom.bodyClasses := fun hc => hia (hsync.2.mpr hc)
    simp [toggleMobileMenu, hmt, hnm, hbeq, hopen, boolStr] at h
    refine menuSync_open_state t ?_ ?_ ?_
    · rw [← h]
    · intro nm2 hnm2
      rw [← h] at hnm2
      obtain rfl := Option.some.inj hnm2
      exact (self_mem_classToggle_iff _ _).mpr hia
    · rw [← h]
      exact (self_mem_classToggle_iff _ _).mpr hmo

theorem handleClickOutside_menuSync (s t : NavState) (ev : ClickEvent)
    (hs : MenuSync s) (h : handleClickOutside s ev = some t) : MenuSync t := by
  cases hnm : s.dom.navMenu with
  | none => simp [handleClickOutside, hnm] at h
  | some nm =>
  cases hmt : s.dom.menuToggle with
  | none => simp [handleClickOutside, hnm, hmt] at h
  | some mt =>
  simp only [handleClickOutside, hnm, hmt, Option.bind_eq_bind, Option.some_bind] at h
  split at h
  · exact closeMobileMenu_menuSync s t h
  · obtain rfl := Option.some.inj h
    exact hs

theorem handleEscapeKey_menuSync (s t : NavState) (key : String)
    (hs : MenuSync s) (h : handleEscapeKey s key = some t) : MenuSync t := by
  simp only [handleEscapeKey] at h
  split at h
  · exact closeMobileMenu_menuSync s t h
  · obtain rfl := Option.some.inj h
    exact hs

theorem navLinkClick_menuSync (s t : NavState)
    (hs : MenuSync s) (h : navLinkClick s = some t) : MenuSync t := by
  simp only [navLinkClick] at h
  split at h
  · exact closeMobileMenu_menuSync s t h
  · obtain rfl := Option.some.inj h
    exact hs

theorem resizeRafCallback_menuSync (s t : NavState) (w : Nat)
    (hs : MenuSync s) (h : resizeRafCallback s w = some t) : MenuSync t := by
  simp only [resizeRafCallback] at h
  split at h
  · exact closeMobileMenu_menuSync _ t h
  · obtain rfl := Option.some.inj h
    refine menuSync_untouched s _ ?_ ?_ ?_ hs <;> rfl

theorem toggleDropdown_menuSync (s t : NavState) (i : Nat) (pd : Bool)
    (hs : MenuSync s) (h : toggleDropdown s i = some (t, pd)) : MenuSync t := by
  cases hd : s.dom.dropdowns[i]? with
  | none => simp [toggleDropdown, hd] at h
  | some d =>
  cases hdesk : s.isDesktop with
  | true =>
    simp [toggleDropdown, hd, hdesk] at h
    obtain ⟨ht, _⟩ := h
    exact ht ▸ hs
  | false =>
  cases hdt : d.toggle with
  | none => simp [toggleDropdown, hd, hdesk, hdt] at h
  | some tg =>
    simp [toggleDropdown, hd, hdesk, hdt] at h
    obtain ⟨ht, _⟩ := h
    refine menuSync_untouched s t ?_ ?_ ?_ hs <;> rw [← ht]

theorem handleDropdownKeyboard_menuSync (s t : NavState) (key : String)
    (ci : Option Nat) (pd : Bool) (hs : MenuSync s)
    (h : handleDropdownKeyboard s key ci = some (t, pd)) : MenuSync t := by
  cases ci with
  | none =>
    simp [handleDropdownKeyboard] at h
    obtain ⟨ht, _⟩ := h
    exact ht ▸ hs
  | some i =>
  by_cases hc : ((key == "Enter" || key == " ") && !s.isDesktop) = true
  · cases htd : toggleDropdown s i with
    | none => simp [handleDropdownKeyboard, hc, htd] at h
    | some p =>
      obtain ⟨t0, pd0⟩ := p
      have hsync0 : MenuSync t0 := toggleDropdown_menuSync s t0 i pd0 hs htd
      by_cases hesc : (key == "Escape") = true
      · simp [handleDropdownKeyboard, hc, htd, hesc] at h
        obtain ⟨ht, _⟩ := h
        refine menuSync_untouched t0 t ?_ ?_ ?_ hsync0 <;> rw [← ht]
      · rw [Bool.not_eq_true] at hesc
        simp [handleDropdownKeyboard, hc, htd, hesc] at h
        obtain ⟨ht, _⟩ := h
        exact ht ▸ hsync0
  · rw [Bool.not_eq_true] at hc
    by_cases hesc : (key == "Escape") = true
    · simp [handleDropdownKeyboard, hc, hesc] at h
      obtain ⟨ht, _⟩ := h
      refine menuSync_untouched s t ?_ ?_ ?_ hs <;> rw [← ht]
    · rw [Bool.not_eq_true] at hesc
      simp [handleDropdownKeyboard, hc, hesc] at h
      obtain ⟨ht, _⟩ := h
      exact ht ▸ hs

theorem dropdownMouseEnter_menuSync (s : NavState) (i : Nat) (hs : MenuSync s) :
    MenuSync (dropdownMouseEnter s i) := by
  cases hdesk : s.isDesktop <;>
    refine menuSync_untouched s _ ?_ ?_ ?_ hs <;>
      simp [dropdownMouseEnter, hdesk]

theorem dropdownMouseLeave_menuSync (s : NavState) (i : Nat) (hs : MenuSync s) :
    MenuSync (dropdownMouseLeave s i) := by
  cases hdesk : s.isDesktop <;>
    refine menuSync_untouched s _ ?_ ?_ ?_ hs <;>
      simp [dropdownMouseLeave, hdesk]

/-- C8: assuming the three encodings of the menu-open state agree
(`aria-expanded='true'` iff `is-active` iff `menu-open`), every handler
of the module preserves that agreement. -/
theorem handlers_preserve_menu_sync (s : NavState) (hs : MenuSync s) :
    (∀ t, toggleMobileMenu s = some t → MenuSync t) ∧
    (∀ ev t, handleClickOutside s ev = some t → MenuSync t) ∧
    (∀ key t, handleEscapeKey s key = some t → MenuSync t) ∧
    (∀ t, navLinkClick s = some t → MenuSync t) ∧
    (∀ w t, resizeRafCallback s w = some t → MenuSync t) ∧
    (∀ i t pd, toggleDropdown s i = some (t, pd) → MenuSync t) ∧
    (∀ key ci t pd, handleDropdownKeyboard s key ci = some (t, pd) → MenuSync t) ∧
    (∀ i, MenuSync (dropdownMouseEnter s i)) ∧
    (∀ i, MenuSync (dropdownMouseLeave s i)) :=
  ⟨fun t h => toggleMobileMenu_menuSync s t hs h,
   fun ev t h => handleClickOutside_menuSync s t ev hs h,
   fun key t h => handleEscapeKey_menuSync s t key hs h,
   fun t h => navLinkClick_menuSync s t hs h,
   fun w t h => resizeRafCallback_menuSync s t w hs h,
   fun i t pd h => toggleDropdown_menuSync s t i pd hs h,
   fun key ci t pd h => handleDropdownKeyboard_menuSync s t key ci pd hs h,
   fun i => dropdownMouseEnter_menuSync s i hs,
   fun i => dropdownMouseLeave_menuSync s i hs⟩

/-- Witness for `handlers_preserve_menu_sync`: opening the menu from the
concrete synchronized closed state yields a synchronized state. -/
theorem handlers_preserve_menu_sync_witness :
    MenuSync { dom := { menuToggle := some { ariaExpanded := some "true" },
                        navMenu := some ["is-active"], bodyClasses := ["menu-open"],
                        dropdowns := [ddClosed] },
               isDesktop := false } :=
  (handlers_preserve_menu_sync sClosed (by
    intro mt nm hmt hnm
    obtain rfl := Option.some.inj hmt
    obtain rfl := Option.some.inj hnm
    exact ⟨by decide, by decide⟩)).1 _ (by decide)

/-- C4: a dropdown is revealed on hover on desktop and on tap on mobile.
On desktop (`isDesktop` true): mouseenter adds `is-open` and sets the
toggle's `aria-expanded` to `'true'` (when the toggle exists), mouseleave
removes `is-open` and sets it to `'false'`, and a click on the dropdown
toggle changes no state and does not prevent the default navigation.  On
mobile (`isDesktop` false): a click on the dropdown toggle prevents the
default and flips the dropdown's `is-open` class, setting the toggle's
`aria-expanded` to the new state. -/
theorem dropdown_hover_desktop_tap_mobile (s : NavState) (i : Nat) :
    (s.isDesktop = true →
      (∀ d2, (dropdownMouseEnter s i).dom.dropdowns[i]? = some d2 →
        "is-open" ∈ d2.classes ∧
        ∀ tg, d2.toggle = some tg → tg.ariaExpanded = some "true") ∧
      (∀ d2, (dropdownMouseLeave s i).dom.dropdowns[i]? = some d2 →
        "is-open" ∉ d2.classes ∧
        ∀ tg, d2.toggle = some tg → tg.ariaExpanded = some "false") ∧
      (∀ d, s.dom.dropdowns[i]? = some d → toggleDropdown s i = some (s, false))) ∧
    (s.isDesktop = false →
      ∀ d, s.dom.dropdowns[i]? = some d → d.toggle.isSome →
        ∃ t, toggleDropdown s i = some (t, true) ∧
          ∀ d2, t.dom.dropdowns[i]? = some d2 →
            ("is-open" ∈ d2.classes ↔ "is-open" ∉ d.classes) ∧
            ∀ tg, d2.toggle = some tg →
              tg.ariaExpanded =
                some (boolStr (!(classContains "is-open" d.classes)))) := by
  constructor
  · intro hdesk
    refine ⟨?_, ?_, ?_⟩
    · intro d2 h2
      simp [dropdownMouseEnter, hdesk, List.getElem?_mapIdx] at h2
      obtain ⟨d0, _, rfl⟩ := h2
      refine ⟨self_mem_classAdd _ _, ?_⟩
      intro tg htg
      simp [Option.map_eq_some'] at htg
      obtain ⟨t0, _, rfl⟩ := htg
      rfl
    · intro d2 h2
      simp [dropdownMouseLeave, hdesk, List.getElem?_mapIdx] at h2
      obtain ⟨d0, _, rfl⟩ := h2
      refine ⟨not_mem_classRemove_self _ _, ?_⟩
      intro tg htg
      simp [Option.map_eq_some'] at htg
      obtain ⟨t0, _, rfl⟩ := htg
      rfl
    · intro d hd
      simp [toggleDropdown, hd, hdesk]
  · intro hmob d hd htg1
    obtain ⟨tg, htg⟩ := Option.isSome_iff_exists.mp htg1
    refine ⟨{ s with dom := { s.dom with
        dropdowns := s.dom.dropdowns.mapIdx (fun j dj =>
          if j = i then
            { classes := classToggle "is-open" dj.classes,
              toggle := dj.toggle.map (fun t => { t with ariaExpanded := some (boolStr (!(classContains "is-open" d.classes))) }) }
          else closeDropdown dj) } }, ?_, ?_⟩
    · simp [toggleDropdown, hd, hmob, htg]
    · intro d2 h2
      simp [List.getElem?_mapIdx, hd] at h2
      rw [← h2]
      refine ⟨self_mem_classToggle_iff _ _, ?_⟩
      intro tg2 htg2
      simp [Option.map_eq_some'] at htg2
      obtain ⟨t0, _, rfl⟩ := htg2
      rfl

/-- Witness for `dropdown_hover_desktop_tap_mobile`: concrete desktop
hover and click instances, and a concrete mobile tap instance. -/
theorem dropdown_hover_desktop_tap_mobile_witness :
    ("is-open" ∈ ddOpen.classes ∧
      ∀ tg, ddOpen.toggle = some tg → tg.ariaExpanded = some "true") ∧
    toggleDropdown sDesk 0 = some (sDesk, false) ∧
    (∃ t, toggleDropdown sOpen 1 = some (t, true) ∧
      ∀ d2, t.dom.dropdowns[1]? = some d2 →
        ("is-open" ∈ d2.classes ↔ "is-open" ∉ ddClosed.classes) ∧
        ∀ tg, d2.toggle = some tg →
          tg.ariaExpanded = some (boolStr (!(classContains "is-open" ddClosed.classes)))) :=
  ⟨((dropdown_hover_desktop_tap_mobile sDesk 0).1 rfl).1 ddOpen (by decide),
   ((dropdown_hover_desktop_tap_mobile sDesk 0).1 rfl).2.2 ddClosed (by decide),
   (dropdown_hover_desktop_tap_mobile sOpen 1).2 rfl ddClosed (by decide) (by decide)⟩
